import Mathlib

/-!
# Verification of the PDFtoBPMN core pipeline

Shallow embedding of the core components of the PDFtoBPMN repository:

* data models (`models/data_models.py`, `ir/models.py`)
* Content Router (`core/router.py`)
* Page Analyzer layout detection (`core/analyzer.py`)
* Structure Preserver (`core/structure_preserver.py`) and the OCR response
  parser (`extractors/ocr_client.py`)
* IR Builder relation construction (`ir/builder.py`)
* Structure Analyzer heading / hierarchy heuristics (`ir/structure_analyzer.py`)

Modelling conventions:

* Python floats (coordinates, confidences, thresholds) are modelled as exact
  rationals (`Rat`); float literals such as `1.2` become `6/5`.
* Python `None` becomes `Option`; dict lookups with defaults use `Option.getD`.
* The external OCR collaborator is an oracle function returning `Option`;
  `none` models an exception or an unavailable service.
* Open metadata dicts are modelled by the explicit keys the embedded code
  reads and writes, plus association lists where only presence matters.
* Log/reason strings and the CPython `id()`-based suffix of generated OCR
  block ids are elided: they are not read anywhere in the embedded code.
-/

namespace PDFtoBPMN

/-! ## Enums and bounding boxes (`models/data_models.py`) -/

/-- `ContentType` enum. -/
inductive ContentType where
  | text
  | image
  | vector
  | table
  | heading
  | paragraph
  | list
  | figure
  | unknown
deriving DecidableEq, Repr

/-- `LayoutType` enum. -/
inductive LayoutType where
  | single_column
  | multi_column
  | complex
  | newspaper
  | unknown
deriving DecidableEq, Repr

/-- `OCRMode` enum (recognition-capacity tiers). -/
inductive OCRMode where
  | tiny
  | small
  | base
  | large
  | gundam
deriving DecidableEq, Repr

/-- `RouteDecision` enum. -/
inductive RouteDecision where
  | native
  | ocr
  | hybrid
deriving DecidableEq, Repr

/-- `BBox`: bottom-left-origin bounding box; coordinates as exact rationals. -/
structure BBox where
  x0 : Rat
  y0 : Rat
  x1 : Rat
  y1 : Rat
deriving DecidableEq, Repr

/-- `BBox.area`. -/
def BBox.area (b : BBox) : Rat := (b.x1 - b.x0) * (b.y1 - b.y0)

/-! ## Page metadata and the Content Router (`core/router.py`) -/

/-- `PageMetadata` (the fields consumed by the router). -/
structure PageMetadata where
  page_num : Nat
  width : Rat
  height : Rat
  has_text_layer : Bool
  text_density : Int
  layout_type : LayoutType
  image_count : Nat
  drawing_count : Nat
  bbox_coverage : Rat
deriving DecidableEq, Repr

/-- `ContentRouter.BBOX_COVERAGE_LOW` (0.3). -/
def BBOX_COVERAGE_LOW : Rat := 3/10

/-- `ContentRouter.BBOX_COVERAGE_HIGH` (0.5). -/
def BBOX_COVERAGE_HIGH : Rat := 1/2

/-- `ContentRouter.TEXT_DENSITY_VERY_HIGH`. -/
def TEXT_DENSITY_VERY_HIGH : Int := 5000

/-- `ContentRouter.MODE_TINY_MAX`. -/
def MODE_TINY_MAX : Int := 500

/-- `ContentRouter.MODE_SMALL_MAX`. -/
def MODE_SMALL_MAX : Int := 1000

/-- `ContentRouter.MODE_BASE_MAX`. -/
def MODE_BASE_MAX : Int := 2500

/-- `ContentRouter.MODE_LARGE_MAX`. -/
def MODE_LARGE_MAX : Int := 5000

/-- `ContentRouter._select_ocr_mode`: tier selection by density and layout.
`prioritize_accuracy` is the router's accuracy-priority flag. -/
def select_ocr_mode (prioritize_accuracy : Bool) (text_density : Int)
    (layout_type : LayoutType) : OCRMode :=
  if layout_type = LayoutType.newspaper then
    OCRMode.gundam
  else if prioritize_accuracy then
    if text_density ≤ MODE_SMALL_MAX then OCRMode.base
    else if text_density ≤ MODE_BASE_MAX then OCRMode.base
    else if text_density ≤ MODE_LARGE_MAX then OCRMode.large
    else OCRMode.gundam
  else
    if text_density ≤ MODE_TINY_MAX then OCRMode.tiny
    else if text_density ≤ MODE_SMALL_MAX then OCRMode.small
    else if text_density ≤ MODE_BASE_MAX then OCRMode.base
    else if text_density ≤ MODE_LARGE_MAX then OCRMode.large
    else OCRMode.gundam

/-- `ContentRouter._apply_routing_rules`: the ordered rule table (first match
wins).  The human-readable reason strings of the source are elided; the
decision and tier are returned. -/
def apply_routing_rules (prioritize_accuracy : Bool) (meta : PageMetadata) :
    RouteDecision × Option OCRMode :=
  -- Rule 1: no text layer
  if ¬ meta.has_text_layer then
    (RouteDecision.ocr,
     some (select_ocr_mode prioritize_accuracy meta.text_density meta.layout_type))
  -- Rule 2: newspaper layout
  else if meta.layout_type = LayoutType.newspaper then
    (RouteDecision.ocr, some OCRMode.gundam)
  -- Rule 3: complex layout
  else if meta.layout_type = LayoutType.complex then
    (RouteDecision.ocr,
     some (select_ocr_mode prioritize_accuracy meta.text_density meta.layout_type))
  -- Rule 4: high graphics coverage
  else if BBOX_COVERAGE_HIGH < meta.bbox_coverage then
    (RouteDecision.ocr,
     some (select_ocr_mode prioritize_accuracy meta.text_density meta.layout_type))
  -- Rule 5: medium coverage with graphics, under accuracy priority
  else if BBOX_COVERAGE_LOW < meta.bbox_coverage ∧
      (0 < meta.image_count ∨ 5 < meta.drawing_count) ∧ prioritize_accuracy then
    (RouteDecision.hybrid,
     some (select_ocr_mode prioritize_accuracy meta.text_density meta.layout_type))
  -- Rule 6: very high text density, under accuracy priority
  else if prioritize_accuracy ∧ TEXT_DENSITY_VERY_HIGH < meta.text_density then
    (RouteDecision.ocr,
     some (select_ocr_mode prioritize_accuracy meta.text_density meta.layout_type))
  -- Rule 7 (default): native
  else
    (RouteDecision.native, none)

/-- The PageMetrics of the routing scenario of claim C2: hasTextLayer,
layoutType=Complex, textDensity=3000, graphicsCoverage=0.2. -/
def metaC2 : PageMetadata :=
  { page_num := 0
    width := 612
    height := 792
    has_text_layer := true
    text_density := 3000
    layout_type := LayoutType.complex
    image_count := 0
    drawing_count := 0
    bbox_coverage := 1/5 }

/-! ## Lexicographic ordering key (page, -y1, x0)

Python tuple comparison of `(page, -bbox.y1, bbox.x0)` keys is lexicographic;
we spell the order out explicitly so that it is executable by the kernel. -/

/-- Lexicographic `≤` on ordering keys `(page, -y1, x0)`. -/
def keyLE (a b : Nat × Rat × Rat) : Prop :=
  a.1 < b.1 ∨ (a.1 = b.1 ∧ (a.2.1 < b.2.1 ∨ (a.2.1 = b.2.1 ∧ a.2.2 ≤ b.2.2)))

instance (a b : Nat × Rat × Rat) : Decidable (keyLE a b) := by
  unfold keyLE; exact inferInstance

theorem keyLE_refl (a : Nat × Rat × Rat) : keyLE a a :=
  Or.inr ⟨rfl, Or.inr ⟨rfl, le_refl _⟩⟩

theorem keyLE_of_eq {a b : Nat × Rat × Rat} (h : a = b) : keyLE a b :=
  h ▸ keyLE_refl a

theorem keyLE_total (a b : Nat × Rat × Rat) : keyLE a b ∨ keyLE b a := by
  unfold keyLE
  rcases lt_trichotomy a.1 b.1 with h | h | h
  · exact Or.inl (Or.inl h)
  · rcases lt_trichotomy a.2.1 b.2.1 with h2 | h2 | h2
    · exact Or.inl (Or.inr ⟨h, Or.inl h2⟩)
    · rcases le_total a.2.2 b.2.2 with h3 | h3
      · exact Or.inl (Or.inr ⟨h, Or.inr ⟨h2, h3⟩⟩)
      · exact Or.inr (Or.inr ⟨h.symm, Or.inr ⟨h2.symm, h3⟩⟩)
    · exact Or.inr (Or.inr ⟨h.symm, Or.inl h2⟩)
  · exact Or.inr (Or.inl h)

theorem keyLE_trans (a b c : Nat × Rat × Rat) (hab : keyLE a b) (hbc : keyLE b c) :
    keyLE a c := by
  unfold keyLE at hab hbc ⊢
  rcases hab with h1 | ⟨e1, h1⟩
  · rcases hbc with h2 | ⟨e2, _⟩
    · exact Or.inl (h1.trans h2)
    · exact Or.inl (e2 ▸ h1)
  · rcases hbc with h2 | ⟨e2, h2⟩
    · exact Or.inl (e1 ▸ h2)
    · refine Or.inr ⟨e1.trans e2, ?_⟩
      rcases h1 with g1 | ⟨f1, g1⟩
      · rcases h2 with g2 | ⟨f2, _⟩
        · exact Or.inl (g1.trans g2)
        · exact Or.inl (f2 ▸ g1)
      · rcases h2 with g2 | ⟨f2, g2⟩
        · exact Or.inl (f1 ▸ g2)
        · exact Or.inr ⟨f1.trans f2, g1.trans g2⟩

/-- If `keyLE a b` fails, the keys differ (`keyLE` holds on equal keys). -/
theorem key_ne_of_not_keyLE {a b : Nat × Rat × Rat} (h : ¬ keyLE a b) : a ≠ b :=
  fun he => h (keyLE_of_eq he)

/-! ## IR blocks and relations (`ir/models.py`) -/

/-- `IRBlock`.  The open `metadata` dict is modelled by the explicit keys the
embedded components read and write (`font_size`, `is_bold`, `heading_level`,
`parent_heading`, `original_type`, `list_id`, `list_type`). -/
structure IRBlock where
  id : String
  type : ContentType
  content : String
  page : Nat
  bbox : BBox
  source : String
  confidence : Option Rat
  font_size : Option Rat
  is_bold : Bool
  heading_level : Option Nat
  parent_heading : Option String
  original_type : Option String
  list_id : Option String
  list_type : Option String
deriving DecidableEq, Repr

/-- `IRBlock.get_position_key`: the ordering key `(page, -y1, x0)`. -/
def IRBlock.get_position_key (b : IRBlock) : Nat × Rat × Rat :=
  (b.page, -b.bbox.y1, b.bbox.x0)

/-- The sort relation induced on `IRBlock` by the ordering key: Python's
`sorted(blocks, key=lambda b: b.get_position_key())` compares keys
lexicographically. -/
def posLE (a b : IRBlock) : Prop :=
  keyLE a.get_position_key b.get_position_key

instance : DecidableRel posLE := fun a b =>
  inferInstanceAs (Decidable (keyLE a.get_position_key b.get_position_key))

instance : IsTotal IRBlock posLE :=
  ⟨fun a b => keyLE_total a.get_position_key b.get_position_key⟩

instance : IsTrans IRBlock posLE := ⟨fun _ _ _ hab hbc => keyLE_trans _ _ _ hab hbc⟩

/-- `sorted(blocks, key=...)` of `IRBuilder._build_relations`: Python's sort is
stable, as is insertion sort. -/
def sortBlocks (blocks : List IRBlock) : List IRBlock :=
  List.insertionSort posLE blocks

/-- `IRRelation`.  Its `metadata` holds only the `sequence` counter in
`_build_relations`, modelled as an explicit field. -/
structure IRRelation where
  type : String
  from_id : String
  to_id : String
  sequence : Nat
deriving DecidableEq, Repr

/-- The relation-emitting loop of `IRBuilder._build_relations`: one
`reading_order` relation between each consecutive pair of the sorted list,
`sequence` starting at `i`. -/
def chainRelations : List IRBlock → Nat → List IRRelation
  | a :: b :: rest, i =>
    { type := "reading_order", from_id := a.id, to_id := b.id, sequence := i } ::
      chainRelations (b :: rest) (i + 1)
  | _, _ => []

/-- `IRBuilder._build_relations`. -/
def _build_relations (blocks : List IRBlock) : List IRRelation :=
  chainRelations (sortBlocks blocks) 0

/-! ## Typed blocks (`models/data_models.py`) -/

/-- `TextBlock.__post_init__`: the final `type` of a constructed `TextBlock`.
`if self.font_size and self.font_size > 14` — a `None` or `0.0` font size is
falsy. -/
def text_block_post_type (font_size : Option Rat) : ContentType :=
  match font_size with
  | some s => if s ≠ 0 ∧ 14 < s then ContentType.heading else ContentType.paragraph
  | none => ContentType.paragraph

/-- `TextBlock` dataclass. -/
structure TextBlock where
  bbox : BBox
  text : String
  page_num : Nat
  type : ContentType
  font_name : Option String
  font_size : Option Rat
  is_bold : Bool
  is_italic : Bool
deriving DecidableEq, Repr

/-- Constructing a `TextBlock`: the dataclass `__init__` stores the supplied
fields, then `__post_init__` unconditionally overwrites `type` (the supplied
`ty` is never kept). -/
def TextBlock.create (bbox : BBox) (text : String) (page_num : Nat)
    (_ty : ContentType) (font_name : Option String) (font_size : Option Rat)
    (is_bold : Bool) (is_italic : Bool) : TextBlock :=
  { bbox := bbox
    text := text
    page_num := page_num
    type := text_block_post_type font_size
    font_name := font_name
    font_size := font_size
    is_bold := is_bold
    is_italic := is_italic }

/-- `ImageBlock` dataclass (payload bytes as a list of byte values). -/
structure ImageBlock where
  bbox : BBox
  image_data : List Nat
  format : String
  page_num : Nat
  type : ContentType
  width : Option Nat
  height : Option Nat
  xref : Option Nat
  needs_ocr : Bool
deriving DecidableEq, Repr

/-- `DrawingBlock` dataclass (`drawing_data` as an association list). -/
structure DrawingBlock where
  bbox : BBox
  drawing_data : List (String × String)
  page_num : Nat
  type : ContentType
  image_data : Option (List Nat)
  needs_ocr : Bool
deriving DecidableEq, Repr

/-- `TableBlock` dataclass. -/
structure TableBlock where
  bbox : BBox
  html : String
  rows : Nat
  cols : Nat
  page_num : Nat
  type : ContentType
  data : Option (List (List String))
  source : String
deriving DecidableEq, Repr

/-- `OCRBlock` dataclass (metadata as an association list). -/
structure OCRBlock where
  id : String
  type : ContentType
  content : String
  bbox : BBox
  page_num : Nat
  confidence : Rat
  source : String
  metadata : List (String × String)
deriving DecidableEq, Repr

/-- `OCRResponse` dataclass. -/
structure OCRResponse where
  markdown : String
  blocks : List OCRBlock
  page_id : Nat
  vision_tokens_used : Nat
  text_tokens_generated : Nat
  mode : OCRMode
  confidence_avg : Rat
deriving DecidableEq, Repr

/-- The heterogeneous per-page block list consumed and produced by
`StructurePreserver.process_structure`. -/
inductive PBlock where
  | text : TextBlock → PBlock
  | image : ImageBlock → PBlock
  | drawing : DrawingBlock → PBlock
  | table : TableBlock → PBlock
  | ocr : OCRBlock → PBlock
deriving DecidableEq, Repr

/-- `block.page_num` as read by `StructurePreserver._get_position_key`. -/
def PBlock.page_num : PBlock → Nat
  | .text b => b.page_num
  | .image b => b.page_num
  | .drawing b => b.page_num
  | .table b => b.page_num
  | .ocr b => b.page_num

/-- `block.bbox` as read by `StructurePreserver._get_position_key`. -/
def PBlock.bbox : PBlock → BBox
  | .text b => b.bbox
  | .image b => b.bbox
  | .drawing b => b.bbox
  | .table b => b.bbox
  | .ocr b => b.bbox

/-- `StructurePreserver._get_position_key`: `(page_num, -y1, x0)`. -/
def _get_position_key (b : PBlock) : Nat × Rat × Rat :=
  (b.page_num, -b.bbox.y1, b.bbox.x0)

/-- The sort relation induced on `PBlock` by `_get_position_key`. -/
def pposLE (a b : PBlock) : Prop :=
  keyLE (_get_position_key a) (_get_position_key b)

instance : DecidableRel pposLE := fun a b =>
  inferInstanceAs (Decidable (keyLE (_get_position_key a) (_get_position_key b)))

instance : IsTotal PBlock pposLE :=
  ⟨fun a b => keyLE_total (_get_position_key a) (_get_position_key b)⟩

instance : IsTrans PBlock pposLE := ⟨fun _ _ _ hab hbc => keyLE_trans _ _ _ hab hbc⟩

/-! ## OCR response parsing (`extractors/ocr_client.py`) -/

/-- One entry of the `blocks` array of the recognition service's JSON reply;
`none` fields model missing keys, whose defaults `_parse_ocr_response`
supplies via `.get`. -/
structure FragmentData where
  id : Option String
  type_str : Option String
  content : Option String
  bbox : Option BBox
  confidence : Option Rat
  metadata : Option (List (String × String))
deriving DecidableEq, Repr

/-- The JSON reply of the recognition service, as `_parse_ocr_response`
reads it. -/
structure ResponseData where
  markdown : String
  blocks : List FragmentData
  raw_output : String
deriving DecidableEq, Repr

/-- `ContentType(type_str)`: enum lookup by value, `none` when the string
names no member. -/
def contentTypeOfString (s : String) : Option ContentType :=
  if s = "text" then some ContentType.text
  else if s = "image" then some ContentType.image
  else if s = "vector" then some ContentType.vector
  else if s = "table" then some ContentType.table
  else if s = "heading" then some ContentType.heading
  else if s = "paragraph" then some ContentType.paragraph
  else if s = "list" then some ContentType.list
  else if s = "figure" then some ContentType.figure
  else if s = "unknown" then some ContentType.unknown
  else none

/-- Python's whitespace class (ASCII part), used by `str.split()` and
`str.strip()`. -/
def pyIsSpace (c : Char) : Bool :=
  c = ' ' ∨ c = '\t' ∨ c = '\n' ∨ c = '\x0d' ∨ c = '\x0b' ∨ c = '\x0c'

/-- `len(s.split())`: the number of maximal whitespace-free runs. -/
def countWords (s : String) : Nat :=
  ((s.split pyIsSpace).filter (fun w => w ≠ "")).length

/-- The `OCRBlock` built for one fragment by `_parse_ocr_response`. -/
def parseFragment (pn : Nat) (d : FragmentData) : OCRBlock :=
  { id := d.id.getD ""
    type := (contentTypeOfString (d.type_str.getD "paragraph")).getD ContentType.paragraph
    content := d.content.getD ""
    bbox := d.bbox.getD { x0 := 0, y0 := 0, x1 := 0, y1 := 0 }
    page_num := pn
    confidence := d.confidence.getD 1
    source := "ocr"
    metadata := d.metadata.getD [] }

/-- `OCRClient._parse_ocr_response`. -/
def _parse_ocr_response (rd : ResponseData) (pn : Nat) : OCRResponse :=
  let ocr_blocks := rd.blocks.map (parseFragment pn)
  let confidences := rd.blocks.map (fun d => d.confidence.getD 1)
  { markdown := rd.markdown
    blocks := ocr_blocks
    page_id := pn
    vision_tokens_used := countWords rd.raw_output / 2
    text_tokens_generated := countWords rd.markdown
    mode := OCRMode.base
    confidence_avg :=
      if confidences = [] then 1 else confidences.sum / (confidences.length : Rat) }

/-! ## Structure Preserver (`core/structure_preserver.py`) -/

/-- The recognition collaborator handle: `ocr_client.ocr_figure` called with
the image bytes, page number and bbox (the constant prompt/size arguments are
elided).  `none` models a raised exception. -/
def Oracle : Type := List Nat → Nat → BBox → Option OCRResponse

/-- `StructurePreserver` state: the collaborator handle (`none` = no client)
and the unused `min_area` threshold. -/
structure StructurePreserver where
  ocr_client : Option Oracle
  min_area : Rat

/-- The `_stats` counters of `StructurePreserver`. -/
structure Stats where
  total_images : Nat
  total_drawings : Nat
  ocr_processed : Nat
  ocr_skipped : Nat
  ocr_errors : Nat
deriving DecidableEq, Repr

/-- `StructurePreserver.__init__` / `reset_statistics`: all counters zero. -/
def initStats : Stats :=
  { total_images := 0, total_drawings := 0, ocr_processed := 0
    ocr_skipped := 0, ocr_errors := 0 }

/-- `StructurePreserver._process_image_ocr`: submit the image to the
collaborator, and on a reply with at least one fragment build the merged
`OCRBlock` — content is the newline-join of the fragment contents, bbox the
original image's bbox, confidence the reply's `confidence_avg`, type the
first fragment's type.  `none` on a missing client, a raised call or an
empty fragment list.  (The CPython `id(image_block)` suffix of the generated
id is elided.) -/
def _process_image_ocr (client : Option Oracle) (image_block : ImageBlock)
    (page_num : Nat) : Option OCRBlock :=
  match client with
  | none => none
  | some call =>
    match call image_block.image_data page_num image_block.bbox with
    | none => none
    | some ocr_response =>
      match ocr_response.blocks with
      | [] => none
      | first_block :: _ =>
        some
          { id := "ocr_image_" ++ toString page_num
            bbox := image_block.bbox
            content :=
              String.intercalate "\n" (ocr_response.blocks.map OCRBlock.content)
            page_num := page_num
            type := first_block.type
            confidence := ocr_response.confidence_avg
            source := "ocr"
            metadata :=
              ("source", "image_ocr") ::
              ("original_format", image_block.format) ::
              ("markdown", ocr_response.markdown) :: first_block.metadata }

/-- The per-block loop of `StructurePreserver.process_structure`, threading
the counters: flagged images are recognised or kept, vector drawings are
dropped, everything else passes through. -/
def process_blocks (client : Option Oracle) (page_num : Nat) :
    List PBlock → Stats → List PBlock × Stats
  | [], st => ([], st)
  | b :: rest, st =>
    match b with
    | .image ib =>
      if ib.needs_ocr then
        let st1 := { st with total_images := st.total_images + 1 }
        match _process_image_ocr client ib page_num with
        | some ocr_block =>
          let r := process_blocks client page_num rest
            { st1 with ocr_processed := st1.ocr_processed + 1 }
          (PBlock.ocr ocr_block :: r.1, r.2)
        | none =>
          let r := process_blocks client page_num rest
            { st1 with ocr_errors := st1.ocr_errors + 1 }
          (b :: r.1, r.2)
      else
        let r := process_blocks client page_num rest st
        (b :: r.1, r.2)
    | .drawing _ => process_blocks client page_num rest st
    | _ =>
      let r := process_blocks client page_num rest st
      (b :: r.1, r.2)

/-- `StructurePreserver.process_structure`: transform the blocks, then
stably sort the result by `_get_position_key`. -/
def process_structure (sp : StructurePreserver) (blocks : List PBlock)
    (page_num : Nat) (st : Stats) : List PBlock × Stats :=
  let r := process_blocks sp.ocr_client page_num blocks st
  (List.insertionSort pposLE r.1, r.2)

/-- The per-block result of the loop, without the counters: `some` keeps the
(possibly recognition-merged) block, `none` drops it. -/
def transformBlock (client : Option Oracle) (page_num : Nat) : PBlock → Option PBlock
  | .image ib =>
    if ib.needs_ocr then
      match _process_image_ocr client ib page_num with
      | some ocr_block => some (PBlock.ocr ocr_block)
      | none => some (PBlock.image ib)
    else some (PBlock.image ib)
  | .drawing _ => none
  | b => some b

/-- A recognition-flagged image whose recognition call fails. -/
def isFailedFlagged (client : Option Oracle) (page_num : Nat) : PBlock → Bool
  | .image ib => ib.needs_ocr && (_process_image_ocr client ib page_num).isNone
  | _ => false

/-- A recognition-flagged image whose recognition call succeeds. -/
def isMergedFlagged (client : Option Oracle) (page_num : Nat) : PBlock → Bool
  | .image ib => ib.needs_ocr && (_process_image_ocr client ib page_num).isSome
  | _ => false

/-- A recognition-flagged image. -/
def isFlaggedImage : PBlock → Bool
  | .image ib => ib.needs_ocr
  | _ => false

/-- A block the preserver passes through unchanged: anything that is neither
a recognition-flagged image nor a vector drawing. -/
def isPassThrough : PBlock → Bool
  | .image ib => !ib.needs_ocr
  | .drawing _ => false
  | _ => true

/-- One `process_structure` call: the preserver, a page's block list and the
page number. -/
structure PSCall where
  sp : StructurePreserver
  blocks : List PBlock
  page_num : Nat

/-- A sequence of `process_structure` calls threading the statistics. -/
def run_calls (calls : List PSCall) (st : Stats) : Stats :=
  calls.foldl (fun s c => (process_structure c.sp c.blocks c.page_num s).2) st

/-! ## Page Analyzer layout detection (`core/analyzer.py`) -/

/-- `PageAnalyzer.MULTI_COLUMN_GAP`. -/
def MULTI_COLUMN_GAP : Rat := 50

/-- A raw `page.get_text("dict")` block as `detect_layout_type` reads it:
its `type` tag (0 = text) and its optional bbox. -/
structure RawBlock where
  btype : Nat
  bbox : Option BBox
deriving DecidableEq, Repr

/-- The `≤`-by-`x0` relation used to sort `(x0, x1)` interval pairs. -/
def xLE (a b : Rat × Rat) : Prop := a.1 ≤ b.1

instance : DecidableRel xLE := fun a b => inferInstanceAs (Decidable (a.1 ≤ b.1))

instance : IsTotal (Rat × Rat) xLE := ⟨fun a b => le_total a.1 b.1⟩

instance : IsTrans (Rat × Rat) xLE := ⟨fun _ _ _ hab hbc => le_trans hab hbc⟩

/-- The clustering loop of `PageAnalyzer._detect_columns`: merge the next
interval into the running column when its `x0` is within `MULTI_COLUMN_GAP`
of the column's right edge, else start a new column. -/
def clusterColumns : List (Rat × Rat) → Rat × Rat → List (Rat × Rat)
  | [], current_col => [current_col]
  | (x0, x1) :: rest, current_col =>
    if x0 ≤ current_col.2 + MULTI_COLUMN_GAP then
      clusterColumns rest (current_col.1, max current_col.2 x1)
    else
      current_col :: clusterColumns rest (x0, x1)

/-- `PageAnalyzer._detect_columns` (its `page_width` argument is accepted and
unused, as in the source). -/
def _detect_columns (x_coords : List (Rat × Rat)) (_page_width : Rat) :
    List (Rat × Rat) :=
  match List.insertionSort xLE x_coords with
  | [] => []
  | c :: rest => clusterColumns rest c

/-- The text blocks (`type == 0`) of a raw block list. -/
def textBlocksOf (blocks : List RawBlock) : List RawBlock :=
  blocks.filter (fun b => b.btype = 0)

/-- The `(x0, x1)` pairs of the text blocks that carry a bbox. -/
def xCoordsOf (blocks : List RawBlock) : List (Rat × Rat) :=
  (textBlocksOf blocks).filterMap (fun b => b.bbox.map (fun r => (r.x0, r.x1)))

/-- `PageAnalyzer.detect_layout_type`. -/
def detect_layout_type (blocks : List RawBlock) (page_width : Rat) : LayoutType :=
  match blocks with
  | [] => LayoutType.unknown
  | _ =>
    let text_blocks := textBlocksOf blocks
    if text_blocks.length < 2 then LayoutType.single_column
    else
      let x_coords := xCoordsOf blocks
      match x_coords with
      | [] => LayoutType.unknown
      | _ =>
        let columns := _detect_columns x_coords page_width
        if columns.length = 1 then LayoutType.single_column
        else if columns.length = 2 then LayoutType.multi_column
        else if 3 ≤ columns.length then
          if 10 < text_blocks.length then LayoutType.newspaper
          else LayoutType.complex
        else LayoutType.single_column

/-! ## Structure Analyzer (`ir/structure_analyzer.py`)

The heading regular expressions are implemented directly over character
lists; `re.match` anchors at the start of the string. -/

/-- `\d` (ASCII digits). -/
def isDigitC (c : Char) : Bool := '0' ≤ c ∧ c ≤ '9'

/-- The character class `[A-ZА-Я]` (Latin and Cyrillic uppercase ranges). -/
def isUpperC (c : Char) : Bool := ('A' ≤ c ∧ c ≤ 'Z') ∨ ('А' ≤ c ∧ c ≤ 'Я')

/-- Consume one-or-more characters satisfying `p` (greedy `p+`). -/
def many1 (p : Char → Bool) : List Char → Option (List Char)
  | c :: rest => if p c then some (rest.dropWhile p) else none
  | [] => none

/-- Consume one literal character. -/
def charTok (c : Char) : List Char → Option (List Char)
  | x :: rest => if x = c then some rest else none
  | [] => none

/-- Consume a literal string. -/
def litTok : List Char → List Char → Option (List Char)
  | [], cs => some cs
  | l :: ls, c :: cs => if c = l then litTok ls cs else none
  | _ :: _, [] => none

/-- `^\d+\.\s+`. -/
def patNumDotSpace (cs : List Char) : Bool :=
  (do
    let r1 ← many1 isDigitC cs
    let r2 ← charTok '.' r1
    many1 pyIsSpace r2).isSome

/-- `^\d+\.\d+\s+`. -/
def patNumNumSpace (cs : List Char) : Bool :=
  (do
    let r1 ← many1 isDigitC cs
    let r2 ← charTok '.' r1
    let r3 ← many1 isDigitC r2
    many1 pyIsSpace r3).isSome

/-- `^[A-ZА-Я][A-ZА-Я\s]+$`. -/
def patAllCaps (cs : List Char) : Bool :=
  match cs with
  | c :: rest =>
    isUpperC c ∧ ¬ rest.isEmpty ∧ rest.all (fun x => isUpperC x ∨ pyIsSpace x)
  | [] => false

/-- `^Глава\s+\d+`. -/
def patGlava (cs : List Char) : Bool :=
  (do
    let r1 ← litTok "Глава".data cs
    let r2 ← many1 pyIsSpace r1
    many1 isDigitC r2).isSome

/-- `^Раздел\s+\d+`. -/
def patRazdel (cs : List Char) : Bool :=
  (do
    let r1 ← litTok "Раздел".data cs
    let r2 ← many1 pyIsSpace r1
    many1 isDigitC r2).isSome

/-- `^Приложение\s+[A-ZА-Я\d]`. -/
def patPrilozhenie (cs : List Char) : Bool :=
  (do
    let r1 ← litTok "Приложение".data cs
    let r2 ← many1 pyIsSpace r1
    match r2 with
    | c :: _ => if isUpperC c ∨ isDigitC c then some ([] : List Char) else none
    | [] => none).isSome

/-- Any of the six `HEADING_PATTERNS`. -/
def headingPatternMatch (t : String) : Bool :=
  patNumDotSpace t.data ∨ patNumNumSpace t.data ∨ patAllCaps t.data ∨
    patGlava t.data ∨ patRazdel t.data ∨ patPrilozhenie t.data

/-- `^\d+\.\d+\.\d+`. -/
def patD3 (cs : List Char) : Bool :=
  (do
    let r1 ← many1 isDigitC cs
    let r2 ← charTok '.' r1
    let r3 ← many1 isDigitC r2
    let r4 ← charTok '.' r3
    many1 isDigitC r4).isSome

/-- `^\d+\.\d+`. -/
def patD2 (cs : List Char) : Bool :=
  (do
    let r1 ← many1 isDigitC cs
    let r2 ← charTok '.' r1
    many1 isDigitC r2).isSome

/-- `^\d+\.`. -/
def patD1 (cs : List Char) : Bool :=
  (do
    let r1 ← many1 isDigitC cs
    charTok '.' r1).isSome

/-- `str.strip()`. -/
def pyStrip (s : String) : String :=
  String.mk (((s.data.dropWhile pyIsSpace).reverse.dropWhile pyIsSpace).reverse)

/-- The heading level assigned by heuristic (a) once a heading pattern
matched: numbering depth, defaulting to the initial level 1. -/
def numberingLevel (t : String) : Nat :=
  if patD3 t.data then 3
  else if patD2 t.data then 2
  else if patD1 t.data then 1
  else 1

/-- The heading level assigned by heuristic (b): distance above the mean. -/
def fontLevel (avg font_size : Rat) : Nat :=
  if avg * (3/2) < font_size then 1
  else if avg * (13/10) < font_size then 2
  else 3

/-- The `(is_heading, heading_level)` pair after the three heuristics of
`_identify_headings` ran in order on one candidate block: (a) numbering
patterns, (b) font size above `avg * 1.2`, (c) bold and short.  Each later
heuristic overwrites the state exactly as the sequential code does. -/
def heurResult (avg : Rat) (text : String) (font_size : Rat) (is_bold : Bool) :
    Bool × Nat :=
  let s1 : Bool × Nat :=
    if headingPatternMatch text then (true, numberingLevel text) else (false, 1)
  let s2 : Bool × Nat :=
    if avg * (6/5) < font_size then (true, fontLevel avg font_size) else s1
  if is_bold ∧ text.length < 100 then (true, min s2.2 2) else s2

/-- The candidate filter of `_identify_headings`: only Text, Paragraph and
Heading blocks are (re)classified. -/
def isHeadingCandidate (b : IRBlock) : Bool :=
  b.type = ContentType.text ∨ b.type = ContentType.paragraph ∨
    b.type = ContentType.heading

/-- The in-place update of a block one heuristic promoted: retype to Heading
and record the level (the source also tags `original_type`). -/
def promoteHeading (b : IRBlock) (lvl : Nat) : IRBlock :=
  { b with
    type := ContentType.heading
    heading_level := some lvl
    original_type := some "heading" }

/-- The per-block body of `_identify_headings`: strip the content, read the
font metadata (missing font size defaults to the mean), run the heuristics,
and promote the block when one fired. -/
def classifyBlock (avg : Rat) (b : IRBlock) : IRBlock :=
  if isHeadingCandidate b then
    if (heurResult avg (pyStrip b.content) (b.font_size.getD avg) b.is_bold).1 then
      promoteHeading b
        (heurResult avg (pyStrip b.content) (b.font_size.getD avg) b.is_bold).2
    else b
  else b

/-- The mean font size of `_identify_headings`: over blocks typed Text or
Paragraph whose `font_size` metadata is present and truthy (a stored `0.0`
is falsy for `if font_size:`); `12.0` when no sizes were collected. -/
def avgFont (blocks : List IRBlock) : Rat :=
  let font_sizes := blocks.filterMap (fun b =>
    if b.type = ContentType.text ∨ b.type = ContentType.paragraph then
      match b.font_size with
      | some v => if v ≠ 0 then some v else none
      | none => none
    else none)
  if font_sizes = [] then 12 else font_sizes.sum / (font_sizes.length : Rat)

/-- `StructureAnalyzer._identify_headings` (the blocks are patched in place;
here the patched list is returned). -/
def _identify_headings (blocks : List IRBlock) : List IRBlock :=
  blocks.map (classifyBlock (avgFont blocks))

/-- One step of `StructureAnalyzer._build_hierarchy` on one block, given the
heading stack (top at the head): a heading pops all entries of level ≥ its
own, records the remaining top (if any) as its parent and pushes itself; a
non-heading block records the current top (if any) as its parent. -/
def hierStep (b : IRBlock) (stack : List (Nat × String)) :
    IRBlock × List (Nat × String) :=
  if b.type = ContentType.heading then
    let level := b.heading_level.getD 1
    let popped := stack.dropWhile (fun e => level ≤ e.1)
    let b2 :=
      match popped with
      | (_, parent_id) :: _ => { b with parent_heading := some parent_id }
      | [] => b
    (b2, (level, b.id) :: popped)
  else
    match stack with
    | (_, parent_id) :: _ => ({ b with parent_heading := some parent_id }, stack)
    | [] => (b, stack)

/-- `StructureAnalyzer._build_hierarchy`: fold `hierStep` over the blocks in
document order, starting from the given stack. -/
def _build_hierarchy : List IRBlock → List (Nat × String) → List IRBlock
  | [], _ => []
  | b :: rest, stack =>
    let r := hierStep b stack
    r.1 :: _build_hierarchy rest r.2

/-! ## Concrete inputs used by scenario theorems and witnesses -/

/-- A paragraph-typed IR block with the given id, content and font size. -/
def mkPara (i : String) (c : String) (fs : Option Rat) : IRBlock :=
  { id := i, type := ContentType.paragraph, content := c, page := 1
    bbox := { x0 := 0, y0 := 0, x1 := 0, y1 := 0 }, source := "native"
    confidence := none, font_size := fs, is_bold := false, heading_level := none
    parent_heading := none, original_type := none, list_id := none
    list_type := none }

/-- A heading-typed IR block with the given id and heading level. -/
def mkHeading (i : String) (lvl : Nat) : IRBlock :=
  { id := i, type := ContentType.heading, content := "", page := 1
    bbox := { x0 := 0, y0 := 0, x1 := 0, y1 := 0 }, source := "native"
    confidence := none, font_size := none, is_bold := false
    heading_level := some lvl, parent_heading := none, original_type := none
    list_id := none, list_type := none }

/-- Two paragraphs whose font sizes are 20 and 10: the first run promotes the
first to a level-2 heading, which removes its font size from the second run's
mean (threshold drops from 18 to 12) and changes its level to 1. -/
def blocksC6 : List IRBlock := [mkPara "b1" "xx" (some 20), mkPara "b2" "yy" (some 10)]

/-- A block with no font-size metadata: the mean font size defaults to 12.0
in both runs, so re-running the heading pass is idempotent on it. -/
def blocksC6W : List IRBlock := [mkPara "b1" "xx" none, mkPara "b2" "yy" none]

/-- A bold, short paragraph matching no numbering pattern, with no font-size
metadata (so its effective font size is the mean itself, not above the
threshold): only heuristic (c) fires. -/
def blockC8 : IRBlock :=
  { mkPara "b1" "xy" none with is_bold := true }

/-- A recognition-flagged raster image. -/
def imageW : ImageBlock :=
  { bbox := { x0 := 0, y0 := 0, x1 := 5, y1 := 5 }, image_data := [1, 2]
    format := "png", page_num := 0, type := ContentType.image, width := none
    height := none, xref := none, needs_ocr := true }

/-- A text block located above the image on the same page. -/
def textW : TextBlock :=
  TextBlock.create { x0 := 0, y0 := 6, x1 := 5, y1 := 9 } "hello" 0
    ContentType.text none (some 10) false false

/-- A preserver whose recognition collaborator always raises. -/
def failingPreserver : StructurePreserver :=
  { ocr_client := some (fun _ _ _ => none), min_area := 1000 }

/-- Fragment "A" with confidence 0.9. -/
def fragA : FragmentData :=
  { id := some "f0", type_str := some "text", content := some "A"
    bbox := some { x0 := 1, y0 := 1, x1 := 2, y1 := 2 }
    confidence := some (9/10), metadata := some [] }

/-- Fragment "B" with confidence 0.7. -/
def fragB : FragmentData :=
  { id := some "f1", type_str := some "paragraph", content := some "B"
    bbox := some { x0 := 3, y0 := 3, x1 := 4, y1 := 4 }
    confidence := some (7/10), metadata := some [] }

/-- The collaborator reply holding fragments "A" and "B". -/
def respAB : OCRResponse :=
  _parse_ocr_response { markdown := "md", blocks := [fragA, fragB], raw_output := "" } 0

/-- Two IR blocks on one page, the lower-left one listed first, for the
reading-order witness. -/
def blocksC1 : List IRBlock :=
  [{ mkPara "low" "p" none with bbox := { x0 := 0, y0 := 0, x1 := 3, y1 := 3 } },
   { mkPara "high" "q" none with bbox := { x0 := 0, y0 := 5, x1 := 3, y1 := 8 } }]

/-- Eleven text blocks clustered into three columns (gaps wider than the
50-unit threshold). -/
def blocksC5 : List RawBlock :=
  [{ btype := 0, bbox := some { x0 := 0, y0 := 700, x1 := 10, y1 := 710 } },
   { btype := 0, bbox := some { x0 := 0, y0 := 650, x1 := 12, y1 := 660 } },
   { btype := 0, bbox := some { x0 := 2, y0 := 600, x1 := 11, y1 := 610 } },
   { btype := 0, bbox := some { x0 := 1, y0 := 550, x1 := 10, y1 := 560 } },
   { btype := 0, bbox := some { x0 := 100, y0 := 700, x1 := 110, y1 := 710 } },
   { btype := 0, bbox := some { x0 := 101, y0 := 650, x1 := 112, y1 := 660 } },
   { btype := 0, bbox := some { x0 := 102, y0 := 600, x1 := 111, y1 := 610 } },
   { btype := 0, bbox := some { x0 := 100, y0 := 550, x1 := 110, y1 := 560 } },
   { btype := 0, bbox := some { x0 := 200, y0 := 700, x1 := 210, y1 := 710 } },
   { btype := 0, bbox := some { x0 := 201, y0 := 650, x1 := 212, y1 := 660 } },
   { btype := 0, bbox := some { x0 := 202, y0 := 600, x1 := 211, y1 := 610 } }]

/-! ## Helper lemmas: the relation chain of `_build_relations` -/

theorem chainRelations_length :
    ∀ (l : List IRBlock) (i : Nat), (chainRelations l i).length = l.length - 1
  | [], _ => rfl
  | [_], _ => rfl
  | a :: b :: rest, i => by
    have ih := chainRelations_length (b :: rest) (i + 1)
    simp only [chainRelations, List.length_cons] at ih ⊢
    omega

theorem chainRelations_map_from :
    ∀ (l : List IRBlock) (i : Nat),
      (chainRelations l i).map IRRelation.from_id = (l.map IRBlock.id).dropLast
  | [], _ => rfl
  | [_], _ => rfl
  | a :: b :: rest, i => by
    have ih := chainRelations_map_from (b :: rest) (i + 1)
    simp only [chainRelations, List.map_cons, List.dropLast_cons₂] at ih ⊢
    rw [ih]

theorem chainRelations_map_to :
    ∀ (l : List IRBlock) (i : Nat),
      (chainRelations l i).map IRRelation.to_id = (l.map IRBlock.id).tail
  | [], _ => rfl
  | [_], _ => rfl
  | a :: b :: rest, i => by
    have ih := chainRelations_map_to (b :: rest) (i + 1)
    simp only [chainRelations, List.map_cons, List.tail_cons] at ih ⊢
    rw [ih]

theorem chainRelations_all_reading_order :
    ∀ (l : List IRBlock) (i : Nat),
      (chainRelations l i).all (fun r => r.type == "reading_order") = true
  | [], _ => rfl
  | [_], _ => rfl
  | a :: b :: rest, i => by
    have ih := chainRelations_all_reading_order (b :: rest) (i + 1)
    simp only [chainRelations, List.all_cons, ih, Bool.and_true]
    rfl

/-! ## Helper lemmas: stability of the position-key sort -/

theorem orderedInsert_filter_key (k : Nat × Rat × Rat) (a : IRBlock) :
    ∀ m : List IRBlock,
      (List.orderedInsert posLE a m).filter (fun b => decide (b.get_position_key = k)) =
        if a.get_position_key = k then
          a :: m.filter (fun b => decide (b.get_position_key = k))
        else m.filter (fun b => decide (b.get_position_key = k))
  | [] => by
    by_cases hk : a.get_position_key = k <;> simp [List.orderedInsert, hk]
  | b :: m => by
    by_cases hab : posLE a b
    · rw [List.orderedInsert, if_pos hab]
      by_cases hk : a.get_position_key = k <;> simp [List.filter_cons, hk]
    · rw [List.orderedInsert, if_neg hab]
      have hne : b.get_position_key ≠ a.get_position_key := fun he =>
        hab (keyLE_of_eq he.symm)
      have ih := orderedInsert_filter_key k a m
      by_cases hk : a.get_position_key = k
      · have hbk : ¬ b.get_position_key = k := fun hbk => hne (hbk.trans hk.symm)
        simp only [List.filter_cons, ih, if_pos hk, hbk, decide_eq_true_eq,
          if_neg hbk, ite_false]
      · simp only [List.filter_cons, ih, if_neg hk]

theorem sortBlocks_filter_key (k : Nat × Rat × Rat) :
    ∀ l : List IRBlock,
      (sortBlocks l).filter (fun b => decide (b.get_position_key = k)) =
        l.filter (fun b => decide (b.get_position_key = k))
  | [] => rfl
  | a :: l => by
    have ih := sortBlocks_filter_key k l
    show (List.orderedInsert posLE a (List.insertionSort posLE l)).filter _ = _
    rw [orderedInsert_filter_key]
    by_cases hk : a.get_position_key = k <;>
      simp only [if_pos, if_neg, hk, ite_true, ite_false, List.filter_cons,
        decide_eq_true_eq, sortBlocks] at ih ⊢ <;> simp [ih]

/-! ## Claim theorems -/

/-- C1.  `IRBuilder._build_relations` stable-sorts the blocks by the ordering
key `(page, -y1, x0)` and links each consecutive sorted pair: it emits exactly
`N - 1` relations for `N` blocks, all of type `"reading_order"`; the relation
sources are the sorted block ids without the last and the targets the sorted
block ids without the first, so the relations form one linear chain whose node
sequence is the sorted list, which is a permutation of the input (every block
is visited exactly once), is sorted by the ordering key, and is stable (blocks
of equal key keep their input order). -/
theorem C1_reading_order_chain (blocks : List IRBlock) :
    (_build_relations blocks).length = blocks.length - 1
    ∧ (_build_relations blocks).all (fun r => r.type == "reading_order") = true
    ∧ (_build_relations blocks).map IRRelation.from_id =
        ((sortBlocks blocks).map IRBlock.id).dropLast
    ∧ (_build_relations blocks).map IRRelation.to_id =
        ((sortBlocks blocks).map IRBlock.id).tail
    ∧ (sortBlocks blocks).Perm blocks
    ∧ List.Sorted posLE (sortBlocks blocks)
    ∧ ∀ k : Nat × Rat × Rat,
        (sortBlocks blocks).filter (fun b => decide (b.get_position_key = k)) =
          blocks.filter (fun b => decide (b.get_position_key = k)) := by
  have hperm : (sortBlocks blocks).Perm blocks :=
    List.perm_insertionSort posLE blocks
  refine ⟨?_, ?_, ?_, ?_, hperm, ?_, ?_⟩
  · rw [_build_relations, chainRelations_length, hperm.length_eq]
  · exact chainRelations_all_reading_order (sortBlocks blocks) 0
  · exact chainRelations_map_from (sortBlocks blocks) 0
  · exact chainRelations_map_to (sortBlocks blocks) 0
  · exact List.sorted_insertionSort posLE blocks
  · exact fun k => sortBlocks_filter_key k blocks

/-- C2 counterexample.  On PageMetrics{hasTextLayer, layoutType=Complex,
textDensity=3000, graphicsCoverage=0.2} with accuracy priority, the router
does not return tier Base: density 3000 exceeds `MODE_BASE_MAX = 2500`. -/
theorem C2_counterexample :
    apply_routing_rules true metaC2 ≠ (RouteDecision.ocr, some OCRMode.base) := by
  decide

/-- C2 as amended.  The complex-layout rule (rule 3) fires before the density
rule (rule 6) and yields decision OCR; the accuracy-priority tier mapping
sends density 3000 (above `MODE_BASE_MAX = 2500`, at most
`MODE_LARGE_MAX = 5000`) to tier Large, not Base. -/
theorem C2_routing_scenario :
    apply_routing_rules true metaC2 = (RouteDecision.ocr, some OCRMode.large)
    ∧ select_ocr_mode true 3000 LayoutType.complex = OCRMode.large
    ∧ MODE_BASE_MAX < 3000 ∧ (3000 : Int) ≤ MODE_LARGE_MAX := by
  decide

/-! ## Helper lemmas: the Structure Preserver loop -/

theorem process_blocks_fst (client : Option Oracle) (pn : Nat) :
    ∀ (bs : List PBlock) (st : Stats),
      (process_blocks client pn bs st).1 = bs.filterMap (transformBlock client pn)
  | [], _ => rfl
  | b :: rest, st => by
    cases b with
    | image ib =>
      cases hf : ib.needs_ocr with
      | false =>
        simp [process_blocks, transformBlock, hf, process_blocks_fst client pn rest st]
      | true =>
        cases hob : _process_image_ocr client ib pn with
        | none =>
          simp [process_blocks, transformBlock, hf, hob,
            process_blocks_fst client pn rest _]
        | some ob =>
          simp [process_blocks, transformBlock, hf, hob,
            process_blocks_fst client pn rest _]
    | drawing d =>
      simp [process_blocks, transformBlock, process_blocks_fst client pn rest st]
    | text t =>
      simp [process_blocks, transformBlock, process_blocks_fst client pn rest st]
    | table t =>
      simp [process_blocks, transformBlock, process_blocks_fst client pn rest st]
    | ocr o =>
      simp [process_blocks, transformBlock, process_blocks_fst client pn rest st]

theorem process_blocks_snd (client : Option Oracle) (pn : Nat) :
    ∀ (bs : List PBlock) (st : Stats),
      (process_blocks client pn bs st).2 =
        { st with
          total_images := st.total_images + bs.countP isFlaggedImage
          ocr_processed := st.ocr_processed + bs.countP (isMergedFlagged client pn)
          ocr_errors := st.ocr_errors + bs.countP (isFailedFlagged client pn) }
  | [], _ => rfl
  | b :: rest, st => by
    cases b with
    | image ib =>
      cases hf : ib.needs_ocr with
      | false =>
        simp [process_blocks, hf, process_blocks_snd client pn rest st,
          List.countP_cons, isFlaggedImage, isMergedFlagged, isFailedFlagged,
          Stats.mk.injEq]
      | true =>
        cases hob : _process_image_ocr client ib pn with
        | none =>
          simp only [process_blocks, hf, if_true, hob,
            process_blocks_snd client pn rest _]
          simp [List.countP_cons, isFlaggedImage, isMergedFlagged,
            isFailedFlagged, hf, hob, Stats.mk.injEq]
          omega
        | some ob =>
          simp only [process_blocks, hf, if_true, hob,
            process_blocks_snd client pn rest _]
          simp [List.countP_cons, isFlaggedImage, isMergedFlagged,
            isFailedFlagged, hf, hob, Stats.mk.injEq]
          omega
    | drawing d =>
      simp [process_blocks, process_blocks_snd client pn rest st,
        List.countP_cons, isFlaggedImage, isMergedFlagged, isFailedFlagged,
        Stats.mk.injEq]
    | text t =>
      simp [process_blocks, process_blocks_snd client pn rest st,
        List.countP_cons, isFlaggedImage, isMergedFlagged, isFailedFlagged,
        Stats.mk.injEq]
    | table t =>
      simp [process_blocks, process_blocks_snd client pn rest st,
        List.countP_cons, isFlaggedImage, isMergedFlagged, isFailedFlagged,
        Stats.mk.injEq]
    | ocr o =>
      simp [process_blocks, process_blocks_snd client pn rest st,
        List.countP_cons, isFlaggedImage, isMergedFlagged, isFailedFlagged,
        Stats.mk.injEq]

/-- Each recognition-flagged image is counted as exactly one of merged or
failed. -/
theorem countP_flagged_split (client : Option Oracle) (pn : Nat) (bs : List PBlock) :
    bs.countP isFlaggedImage =
      bs.countP (isMergedFlagged client pn) + bs.countP (isFailedFlagged client pn) := by
  induction bs with
  | nil => rfl
  | cons b rest ih =>
    cases b with
    | image ib =>
      cases hf : ib.needs_ocr with
      | false =>
        simp [List.countP_cons, isFlaggedImage, isMergedFlagged, isFailedFlagged,
          hf, ih]
      | true =>
        cases hob : _process_image_ocr client ib pn with
        | none =>
          simp [List.countP_cons, isFlaggedImage, isMergedFlagged,
            isFailedFlagged, hf, hob, ih]
          omega
        | some ob =>
          simp [List.countP_cons, isFlaggedImage, isMergedFlagged,
            isFailedFlagged, hf, hob, ih]
          omega
    | drawing d =>
      simp [List.countP_cons, isFlaggedImage, isMergedFlagged, isFailedFlagged, ih]
    | text t =>
      simp [List.countP_cons, isFlaggedImage, isMergedFlagged, isFailedFlagged, ih]
    | table t =>
      simp [List.countP_cons, isFlaggedImage, isMergedFlagged, isFailedFlagged, ih]
    | ocr o =>
      simp [List.countP_cons, isFlaggedImage, isMergedFlagged, isFailedFlagged, ih]

/-- A failed flagged image is sent through unchanged by the per-block
transformation. -/
theorem transformBlock_of_failed (client : Option Oracle) (pn : Nat) (b : PBlock)
    (h : isFailedFlagged client pn b = true) : transformBlock client pn b = some b := by
  cases b with
  | image ib =>
    simp only [isFailedFlagged, Bool.and_eq_true, Option.isNone_iff_eq_none] at h
    simp [transformBlock, h.1, h.2]
  | drawing d => simp [isFailedFlagged] at h
  | text t => rfl
  | table t => rfl
  | ocr o => rfl

/-- A pass-through block is sent through unchanged by the per-block
transformation. -/
theorem transformBlock_of_passThrough (client : Option Oracle) (pn : Nat)
    (b : PBlock) (h : isPassThrough b = true) : transformBlock client pn b = some b := by
  cases b with
  | image ib =>
    simp only [isPassThrough, Bool.not_eq_true'] at h
    simp [transformBlock, h]
  | drawing d => simp [isPassThrough] at h
  | text t => rfl
  | table t => rfl
  | ocr o => rfl

/-- Membership in the preserver's output from a kept transformation result. -/
theorem mem_process_structure_of_kept (sp : StructurePreserver) (bs : List PBlock)
    (pn : Nat) (st : Stats) (b : PBlock) (hb : b ∈ bs)
    (ht : transformBlock sp.ocr_client pn b = some b) :
    b ∈ (process_structure sp bs pn st).1 := by
  have hfm : b ∈ bs.filterMap (transformBlock sp.ocr_client pn) :=
    List.mem_filterMap.mpr ⟨b, hb, ht⟩
  have hp : (List.insertionSort pposLE
      (bs.filterMap (transformBlock sp.ocr_client pn))).Perm
      (bs.filterMap (transformBlock sp.ocr_client pn)) :=
    List.perm_insertionSort pposLE _
  show b ∈ List.insertionSort pposLE (process_blocks sp.ocr_client pn bs st).1
  rw [process_blocks_fst]
  exact hp.mem_iff.mpr hfm

/-- C4.  A recognition-flagged raster image whose recognition call fails
(raised call, empty fragment list or unavailable collaborator, all of which
make `_process_image_ocr` return `none`) is kept unchanged in the output
list; `ocr_errors` grows by exactly one per such failure; every block that is
neither a flagged image nor a vector drawing is also kept unchanged.  The
embedded `process_structure` is a total function: no failure escapes to the
caller. -/
theorem C4_recognition_failure (sp : StructurePreserver) (bs : List PBlock)
    (pn : Nat) (st : Stats) :
    (process_structure sp bs pn st).2.ocr_errors =
        st.ocr_errors + bs.countP (isFailedFlagged sp.ocr_client pn)
    ∧ (∀ b ∈ bs, isFailedFlagged sp.ocr_client pn b = true →
        b ∈ (process_structure sp bs pn st).1)
    ∧ (∀ b ∈ bs, isPassThrough b = true → b ∈ (process_structure sp bs pn st).1) := by
  refine ⟨?_, ?_, ?_⟩
  · show (process_blocks sp.ocr_client pn bs st).2.ocr_errors = _
    rw [process_blocks_snd]
  · exact fun b hb hfail => mem_process_structure_of_kept sp bs pn st b hb
      (transformBlock_of_failed sp.ocr_client pn b hfail)
  · exact fun b hb hpass => mem_process_structure_of_kept sp bs pn st b hb
      (transformBlock_of_passThrough sp.ocr_client pn b hpass)

/-- C4 witness: a flagged image whose collaborator raises, next to a text
block — the image and the text block are both in the output and the error
counter reads exactly 1. -/
theorem C4_witness :
    PBlock.image imageW ∈
      (process_structure failingPreserver [PBlock.image imageW, PBlock.text textW]
        0 initStats).1
    ∧ PBlock.text textW ∈
      (process_structure failingPreserver [PBlock.image imageW, PBlock.text textW]
        0 initStats).1
    ∧ (process_structure failingPreserver [PBlock.image imageW, PBlock.text textW]
        0 initStats).2.ocr_errors = 1 := by
  have h := C4_recognition_failure failingPreserver
    [PBlock.image imageW, PBlock.text textW] 0 initStats
  exact ⟨h.2.1 _ (by decide) (by decide), h.2.2 _ (by decide) (by decide),
    h.1.trans (by decide)⟩

/-- C3.  A recognition-flagged image whose collaborator reply parses to at
least one fragment is replaced by exactly one merged block: its content is
the newline-join of the fragment texts in response order, its confidence the
arithmetic mean of the fragment confidences, its bbox the original
placeholder's bbox, its type the first fragment's parsed content type. -/
theorem C3_merge_success (ib : ImageBlock) (pn : Nat) (md raw : String)
    (f : FragmentData) (fs : List FragmentData) (st : Stats)
    (hflag : ib.needs_ocr = true) :
    ∃ ob : OCRBlock,
      _process_image_ocr
          (some fun _ _ _ =>
            some (_parse_ocr_response
              { markdown := md, blocks := f :: fs, raw_output := raw } pn))
          ib pn = some ob
      ∧ ob.content = String.intercalate "\n" ((f :: fs).map (fun d => d.content.getD ""))
      ∧ ob.confidence =
          ((f :: fs).map (fun d => d.confidence.getD 1)).sum / ((fs.length + 1 : Nat) : Rat)
      ∧ ob.bbox = ib.bbox
      ∧ ob.type = (parseFragment pn f).type
      ∧ (process_structure
          { ocr_client := some fun _ _ _ =>
              some (_parse_ocr_response
                { markdown := md, blocks := f :: fs, raw_output := raw } pn)
            min_area := 1000 }
          [PBlock.image ib] pn st).1 = [PBlock.ocr ob] := by
  refine ⟨_, rfl, ?_, ?_, rfl, rfl, ?_⟩
  · show String.intercalate "\n"
      (((f :: fs).map (parseFragment pn)).map OCRBlock.content) = _
    rw [List.map_map]
    rfl
  · show (_parse_ocr_response
        { markdown := md, blocks := f :: fs, raw_output := raw } pn).confidence_avg = _
    simp [_parse_ocr_response]
  · show List.insertionSort pposLE (process_blocks _ pn [PBlock.image ib] st).1 = _
    simp [process_blocks, hflag, _process_image_ocr, List.insertionSort]

/-- C3 witness: fragments "A" and "B" with confidences 0.9 and 0.7 merge into
one block with content `"A\nB"`, confidence 0.8, the placeholder's bbox and
the first fragment's type. -/
theorem C3_witness :
    (_process_image_ocr (some fun _ _ _ => some respAB) imageW 0).map
        OCRBlock.content = some "A\nB"
    ∧ (_process_image_ocr (some fun _ _ _ => some respAB) imageW 0).map
        OCRBlock.confidence = some (4/5)
    ∧ (_process_image_ocr (some fun _ _ _ => some respAB) imageW 0).map
        OCRBlock.bbox = some imageW.bbox
    ∧ (_process_image_ocr (some fun _ _ _ => some respAB) imageW 0).map
        OCRBlock.type = some ContentType.text
    ∧ ∃ ob : OCRBlock,
      _process_image_ocr
          (some fun _ _ _ =>
            some (_parse_ocr_response
              { markdown := "md", blocks := fragA :: [fragB], raw_output := "" } 0))
          imageW 0 = some ob
      ∧ ob.content =
          String.intercalate "\n" ((fragA :: [fragB]).map (fun d => d.content.getD ""))
      ∧ ob.confidence =
          ((fragA :: [fragB]).map (fun d => d.confidence.getD 1)).sum /
            ((([fragB] : List FragmentData).length + 1 : Nat) : Rat)
      ∧ ob.bbox = imageW.bbox
      ∧ ob.type = (parseFragment 0 fragA).type
      ∧ (process_structure
          { ocr_client := some fun _ _ _ =>
              some (_parse_ocr_response
                { markdown := "md", blocks := fragA :: [fragB], raw_output := "" } 0)
            min_area := 1000 }
          [PBlock.image imageW] 0 initStats).1 = [PBlock.ocr ob] := by
  obtain ⟨ob, h1, h2, h3, h4, h5, h6⟩ :=
    C3_merge_success imageW 0 "md" "" fragA [fragB] initStats rfl
  refine ⟨?_, ?_, ?_, ?_, ob, h1, h2, h3, h4, h5, h6⟩
  · show Option.map OCRBlock.content
      (_process_image_ocr
        (some fun _ _ _ =>
          some (_parse_ocr_response
            { markdown := "md", blocks := fragA :: [fragB], raw_output := "" } 0))
        imageW 0) = some "A\nB"
    rw [h1, Option.map_some', h2]
    decide
  · show Option.map OCRBlock.confidence
      (_process_image_ocr
        (some fun _ _ _ =>
          some (_parse_ocr_response
            { markdown := "md", blocks := fragA :: [fragB], raw_output := "" } 0))
        imageW 0) = some (4/5)
    rw [h1, Option.map_some', h3]
    simp [fragA, fragB]
    norm_num
  · show Option.map OCRBlock.bbox
      (_process_image_ocr
        (some fun _ _ _ =>
          some (_parse_ocr_response
            { markdown := "md", blocks := fragA :: [fragB], raw_output := "" } 0))
        imageW 0) = some imageW.bbox
    rw [h1, Option.map_some', h4]
  · show Option.map OCRBlock.type
      (_process_image_ocr
        (some fun _ _ _ =>
          some (_parse_ocr_response
            { markdown := "md", blocks := fragA :: [fragB], raw_output := "" } 0))
        imageW 0) = some ContentType.text
    rw [h1, Option.map_some', h5]
    decide

/-- C9.  Along any sequence of `process_structure` calls from fresh (or
reset) statistics, `total_images = ocr_processed + ocr_errors` and
`ocr_skipped = 0`; and the `min_area` threshold is never consulted: two
preservers with the same collaborator and different `min_area` behave
identically. -/
theorem C9_counters_invariant (calls : List PSCall) :
    (run_calls calls initStats).total_images =
        (run_calls calls initStats).ocr_processed +
          (run_calls calls initStats).ocr_errors
    ∧ (run_calls calls initStats).ocr_skipped = 0
    ∧ ∀ (client : Option Oracle) (a b : Rat) (bs : List PBlock) (pn : Nat)
        (st : Stats),
        process_structure { ocr_client := client, min_area := a } bs pn st =
          process_structure { ocr_client := client, min_area := b } bs pn st := by
  have key : ∀ (cs : List PSCall) (st : Stats),
      st.total_images = st.ocr_processed + st.ocr_errors → st.ocr_skipped = 0 →
      (run_calls cs st).total_images =
          (run_calls cs st).ocr_processed + (run_calls cs st).ocr_errors
        ∧ (run_calls cs st).ocr_skipped = 0 := by
    intro cs
    induction cs with
    | nil => exact fun st h1 h2 => ⟨h1, h2⟩
    | cons c rest ih =>
      intro st h1 h2
      have hrw := process_blocks_snd c.sp.ocr_client c.page_num c.blocks st
      have hsplit := countP_flagged_split c.sp.ocr_client c.page_num c.blocks
      have hcons : run_calls (c :: rest) st =
          run_calls rest (process_blocks c.sp.ocr_client c.page_num c.blocks st).2 :=
        rfl
      rw [hcons, hrw]
      refine ih _ ?_ ?_
      · dsimp only; omega
      · dsimp only; exact h2
  exact ⟨(key calls initStats rfl rfl).1, (key calls initStats rfl rfl).2,
    fun client a b bs pn st => rfl⟩

/-! ## Helper lemmas: layout detection -/

theorem detect_columns_nil (pw : Rat) : _detect_columns [] pw = [] := rfl

/-- Unfolding of `detect_layout_type` once at least two text blocks and a
nonempty interval list are known. -/
theorem detect_layout_type_of_two (blocks : List RawBlock) (pw : Rat)
    (ht : 2 ≤ (textBlocksOf blocks).length) (hxc : xCoordsOf blocks ≠ []) :
    detect_layout_type blocks pw =
      (if (_detect_columns (xCoordsOf blocks) pw).length = 1 then
        LayoutType.single_column
      else if (_detect_columns (xCoordsOf blocks) pw).length = 2 then
        LayoutType.multi_column
      else if 3 ≤ (_detect_columns (xCoordsOf blocks) pw).length then
        if 10 < (textBlocksOf blocks).length then LayoutType.newspaper
        else LayoutType.complex
      else LayoutType.single_column) := by
  obtain ⟨b, bl, rfl⟩ : ∃ b bl, blocks = b :: bl := by
    cases blocks with
    | nil => simp [textBlocksOf] at ht
    | cons b bl => exact ⟨b, bl, rfl⟩
  obtain ⟨c, cs, hx⟩ : ∃ c cs, xCoordsOf (b :: bl) = c :: cs := by
    cases h : xCoordsOf (b :: bl) with
    | nil => exact absurd h hxc
    | cons c cs => exact ⟨c, cs, rfl⟩
  show (if (textBlocksOf (b :: bl)).length < 2 then LayoutType.single_column
    else
      match xCoordsOf (b :: bl) with
      | [] => LayoutType.unknown
      | _ => _) = _
  rw [if_neg (by omega), hx]

/-- C5.  The layout classification maps the column count produced by the
clustering (`_detect_columns`: sort the `(x0, x1)` intervals by `x0`, merge
the next interval into the running column when its `x0` is within the
50-unit gap threshold of the column's right edge) as the spec states:
1 column → SingleColumn, 2 → MultiColumn, 3 or more with more than 10 text
blocks → Newspaper, 3 or more otherwise → Complex; fewer than 2 text blocks →
SingleColumn; no blocks at all → Unknown. -/
theorem C5_layout_mapping (blocks : List RawBlock) (pw : Rat) :
    (blocks = [] → detect_layout_type blocks pw = LayoutType.unknown)
    ∧ (blocks ≠ [] → (textBlocksOf blocks).length < 2 →
        detect_layout_type blocks pw = LayoutType.single_column)
    ∧ (2 ≤ (textBlocksOf blocks).length →
        (_detect_columns (xCoordsOf blocks) pw).length = 1 →
        detect_layout_type blocks pw = LayoutType.single_column)
    ∧ (2 ≤ (textBlocksOf blocks).length →
        (_detect_columns (xCoordsOf blocks) pw).length = 2 →
        detect_layout_type blocks pw = LayoutType.multi_column)
    ∧ (2 ≤ (textBlocksOf blocks).length →
        3 ≤ (_detect_columns (xCoordsOf blocks) pw).length →
        10 < (textBlocksOf blocks).length →
        detect_layout_type blocks pw = LayoutType.newspaper)
    ∧ (2 ≤ (textBlocksOf blocks).length →
        3 ≤ (_detect_columns (xCoordsOf blocks) pw).length →
        (textBlocksOf blocks).length ≤ 10 →
        detect_layout_type blocks pw = LayoutType.complex) := by
  have hxc_of_cols : ∀ n, 1 ≤ n →
      (_detect_columns (xCoordsOf blocks) pw).length = n → xCoordsOf blocks ≠ [] := by
    intro n hn hcols hnil
    rw [hnil, detect_columns_nil] at hcols
    simp at hcols
    omega
  refine ⟨?_, ?_, ?_, ?_, ?_, ?_⟩
  · intro h; subst h; rfl
  · intro hne h2
    obtain ⟨b, bl, rfl⟩ : ∃ b bl, blocks = b :: bl := by
      cases blocks with
      | nil => exact absurd rfl hne
      | cons b bl => exact ⟨b, bl, rfl⟩
    show (if (textBlocksOf (b :: bl)).length < 2 then LayoutType.single_column
      else _) = _
    rw [if_pos h2]
  · intro ht h1
    rw [detect_layout_type_of_two blocks pw ht (hxc_of_cols 1 (by omega) h1),
      if_pos h1]
  · intro ht h2
    rw [detect_layout_type_of_two blocks pw ht (hxc_of_cols 2 (by omega) h2),
      if_neg (by omega), if_pos h2]
  · intro ht h3 h10
    have hne : xCoordsOf blocks ≠ [] :=
      hxc_of_cols (_detect_columns (xCoordsOf blocks) pw).length (by omega) rfl
    rw [detect_layout_type_of_two blocks pw ht hne, if_neg (by omega),
      if_neg (by omega), if_pos h3, if_pos h10]
  · intro ht h3 h10
    have hne : xCoordsOf blocks ≠ [] :=
      hxc_of_cols (_detect_columns (xCoordsOf blocks) pw).length (by omega) rfl
    rw [detect_layout_type_of_two blocks pw ht hne, if_neg (by omega),
      if_neg (by omega), if_pos h3, if_neg (by omega)]

/-- C5 witness: eleven text blocks in three columns are classed Newspaper,
and an empty page is Unknown. -/
theorem C5_witness :
    detect_layout_type blocksC5 612 = LayoutType.newspaper
    ∧ detect_layout_type [] 612 = LayoutType.unknown := by
  have hcols : _detect_columns (xCoordsOf blocksC5) 612 =
      [(0, 12), (100, 112), (200, 212)] := by
    norm_num +decide [_detect_columns, clusterColumns, xCoordsOf, textBlocksOf,
      blocksC5, List.insertionSort, List.orderedInsert, xLE, MULTI_COLUMN_GAP]
  refine ⟨(C5_layout_mapping blocksC5 612).2.2.2.2.1 (by decide) ?_ (by decide),
    (C5_layout_mapping ([] : List RawBlock) 612).1 rfl⟩
  rw [hcols]
  decide

/-! ## Helper lemmas: heading heuristics -/

/-- `classifyBlock` at one mean is idempotent per block: a promoted block is
still a candidate, its content and font metadata are untouched, so the
second pass recomputes the identical promotion. -/
theorem classifyBlock_idem (avg : Rat) (b : IRBlock) :
    classifyBlock avg (classifyBlock avg b) = classifyBlock avg b := by
  by_cases hc : isHeadingCandidate b = true
  · by_cases h1 :
        (heurResult avg (pyStrip b.content) (b.font_size.getD avg) b.is_bold).1 = true
    · have e1 : classifyBlock avg b = promoteHeading b
          (heurResult avg (pyStrip b.content) (b.font_size.getD avg) b.is_bold).2 := by
        unfold classifyBlock
        rw [if_pos hc, if_pos h1]
      rw [e1]
      have hc2 : isHeadingCandidate (promoteHeading b
          (heurResult avg (pyStrip b.content) (b.font_size.getD avg) b.is_bold).2) =
          true := by
        simp [isHeadingCandidate, promoteHeading]
      unfold classifyBlock
      rw [if_pos hc2]
      have hcon : (promoteHeading b
          (heurResult avg (pyStrip b.content) (b.font_size.getD avg) b.is_bold).2).content =
          b.content := rfl
      have hfs : (promoteHeading b
          (heurResult avg (pyStrip b.content) (b.font_size.getD avg) b.is_bold).2).font_size =
          b.font_size := rfl
      have hbold : (promoteHeading b
          (heurResult avg (pyStrip b.content) (b.font_size.getD avg) b.is_bold).2).is_bold =
          b.is_bold := rfl
      rw [hcon, hfs, hbold, if_pos h1]
      cases b
      rfl
    · have e1 : classifyBlock avg b = b := by
        unfold classifyBlock
        rw [if_pos hc, if_neg h1]
      rw [e1]
      exact e1
  · have e1 : classifyBlock avg b = b := by
      unfold classifyBlock
      rw [if_neg hc]
    rw [e1]
    exact e1

/-- C6 counterexample.  Re-running the heading pass on the already-classified
pair of paragraphs with font sizes 20 and 10 changes the first block's level
from 2 to 1: the first run promotes it to a Heading, which removes its font
size from the second run's mean (the mean drops from 15 to 10), so the same
font size now clears the 1.5x bound. -/
theorem C6_counterexample :
    _identify_headings (_identify_headings blocksC6) ≠ _identify_headings blocksC6 := by
  have hpat : headingPatternMatch "xx" = false := by decide
  have hpat2 : headingPatternMatch "yy" = false := by decide
  have h1 : _identify_headings blocksC6 =
      [promoteHeading (mkPara "b1" "xx" (some 20)) 2, mkPara "b2" "yy" (some 10)] := by
    have havg : avgFont blocksC6 = 15 := by
      norm_num +decide [avgFont, blocksC6, mkPara, List.filterMap_cons]
    rw [_identify_headings, havg]
    norm_num +decide [blocksC6, classifyBlock, isHeadingCandidate, mkPara,
      heurResult, fontLevel, hpat, hpat2, pyStrip]
  have h2 : _identify_headings
      [promoteHeading (mkPara "b1" "xx" (some 20)) 2, mkPara "b2" "yy" (some 10)] =
      [promoteHeading (promoteHeading (mkPara "b1" "xx" (some 20)) 2) 1,
       mkPara "b2" "yy" (some 10)] := by
    have havg : avgFont
        [promoteHeading (mkPara "b1" "xx" (some 20)) 2, mkPara "b2" "yy" (some 10)] =
        10 := by
      norm_num +decide [avgFont, mkPara, promoteHeading, List.filterMap_cons]
    rw [_identify_headings, havg]
    norm_num +decide [classifyBlock, isHeadingCandidate, mkPara, promoteHeading,
      heurResult, fontLevel, hpat, hpat2, pyStrip]
  rw [h1, h2]
  decide

/-- C6 as amended.  Provided the first run leaves the mean font size over
Text/Paragraph-typed blocks unchanged (promotions remove blocks from that
mean, so this is a genuine side condition), re-running the heading pass
reassigns exactly the same classification and level to every block. -/
theorem C6_idempotent_of_mean_unchanged (bs : List IRBlock)
    (h : avgFont (_identify_headings bs) = avgFont bs) :
    _identify_headings (_identify_headings bs) = _identify_headings bs := by
  have e : _identify_headings (_identify_headings bs) =
      (bs.map (classifyBlock (avgFont bs))).map (classifyBlock (avgFont bs)) := by
    show (_identify_headings bs).map
      (classifyBlock (avgFont (_identify_headings bs))) = _
    rw [h]
    rfl
  rw [e, List.map_map]
  exact List.map_congr_left fun a _ => classifyBlock_idem (avgFont bs) a

/-- C6 witness: on blocks with no font-size metadata the mean is 12.0 in both
runs and the pass is idempotent. -/
theorem C6_witness :
    avgFont (_identify_headings blocksC6W) = avgFont blocksC6W
    ∧ _identify_headings (_identify_headings blocksC6W) = _identify_headings blocksC6W := by
  have hpat : headingPatternMatch "xx" = false := by decide
  have hpat2 : headingPatternMatch "yy" = false := by decide
  have hid : _identify_headings blocksC6W = blocksC6W := by
    norm_num +decide [_identify_headings, avgFont, blocksC6W, mkPara,
      classifyBlock, isHeadingCandidate, heurResult, fontLevel, hpat, hpat2,
      pyStrip, List.filterMap_cons]
  exact ⟨by rw [hid], C6_idempotent_of_mean_unchanged blocksC6W (by rw [hid])⟩

/-- C7.  The hierarchy pass: on a heading of level L it pops every stack
entry of level ≥ L, records the remaining top (if any) as the heading's
parent, and pushes (L, id); headings with levels [1,2,3,2] therefore get
parents [none, b1, b2, b1]. -/
theorem C7_hierarchy_stack :
    (∀ (lvl : Nat) (i : String) (stack : List (Nat × String)),
      (hierStep (mkHeading i lvl) stack).2 =
          (lvl, i) :: stack.dropWhile (fun e => lvl ≤ e.1)
        ∧ (hierStep (mkHeading i lvl) stack).1.parent_heading =
          (stack.dropWhile (fun e => lvl ≤ e.1)).head?.map Prod.snd)
    ∧ (_build_hierarchy
        [mkHeading "b1" 1, mkHeading "b2" 2, mkHeading "b3" 3, mkHeading "b4" 2]
        []).map (fun b => (b.id, b.parent_heading)) =
      [("b1", none), ("b2", some "b1"), ("b3", some "b2"), ("b4", some "b1")] := by
  constructor
  · intro lvl i stack
    have hstep : hierStep (mkHeading i lvl) stack =
        ((match stack.dropWhile (fun e => lvl ≤ e.1) with
          | (_, pid) :: _ => { mkHeading i lvl with parent_heading := some pid }
          | [] => mkHeading i lvl),
         (lvl, i) :: stack.dropWhile (fun e => lvl ≤ e.1)) := rfl
    cases hd : stack.dropWhile (fun e => lvl ≤ e.1) with
    | nil =>
      rw [hstep, hd]
      exact ⟨rfl, rfl⟩
    | cons e rest =>
      obtain ⟨lv, pid⟩ := e
      rw [hstep, hd]
      exact ⟨rfl, rfl⟩
  · decide

/-- C8 counterexample.  A bold block of length 2 that matches no numbering
pattern and whose font size is not above the threshold is promoted by
heuristic (c) to a heading of level 1 — not "at most 2 but never 1": the
level variable still holds its initial value 1 and `min 1 2 = 1`. -/
theorem C8_counterexample :
    (_identify_headings [blockC8]).map (fun b => (b.type, b.heading_level)) =
      [(ContentType.heading, some 1)] := by
  have hpat : headingPatternMatch "xy" = false := by decide
  have hlen : ("xy" : String).length < 100 := by decide
  norm_num +decide [_identify_headings, avgFont, blockC8, mkPara, classifyBlock,
    isHeadingCandidate, heurResult, fontLevel, numberingLevel, promoteHeading,
    hpat, hlen, pyStrip, List.filterMap_cons]

/-- C8 as amended.  When neither heuristic (a) nor (b) fired, heuristic (c)
promotes a bold short candidate block to a Heading whose level is
`min 1 2 = 1` — the initial level value capped at 2, i.e. a level-1 heading;
(c) never lowers a level-1 already assigned (it takes `min` with 2). -/
theorem C8_bold_short_promotes_level_one (avg : Rat) (b : IRBlock)
    (hc : isHeadingCandidate b = true)
    (hb : b.is_bold = true)
    (hlen : (pyStrip b.content).length < 100)
    (hpat : headingPatternMatch (pyStrip b.content) = false)
    (hfont : ¬ avg * (6/5) < b.font_size.getD avg) :
    classifyBlock avg b = promoteHeading b 1 := by
  have hr : heurResult avg (pyStrip b.content) (b.font_size.getD avg) b.is_bold =
      (true, 1) := by
    simp [heurResult, hpat, hb, hlen, hfont]
  unfold classifyBlock
  rw [if_pos hc, hr]
  rfl

/-- C8 witness: the concrete bold short block is promoted to level 1 at the
default mean 12. -/
theorem C8_witness : classifyBlock 12 blockC8 = promoteHeading blockC8 1 :=
  C8_bold_short_promotes_level_one 12 blockC8 (by decide) (by decide) (by decide)
    (by decide) (by norm_num [blockC8, mkPara])

/-- C10.  A constructed `TextBlock`'s type is never Text, whatever type the
caller supplied: `__post_init__` reassigns it to Heading exactly when the
font size is set and greater than 14 (a stored size of 14 or less, a zero
size, or no size at all gives Paragraph). -/
theorem C10_textblock_type (bbox : BBox) (text : String) (page_num : Nat)
    (ty : ContentType) (font_name : Option String) (font_size : Option Rat)
    (is_bold is_italic : Bool) :
    (TextBlock.create bbox text page_num ty font_name font_size is_bold
        is_italic).type ≠ ContentType.text
    ∧ ((TextBlock.create bbox text page_num ty font_name font_size is_bold
        is_italic).type = ContentType.heading ↔ ∃ s, font_size = some s ∧ 14 < s)
    ∧ ((TextBlock.create bbox text page_num ty font_name font_size is_bold
        is_italic).type = ContentType.paragraph ↔
        ¬ ∃ s, font_size = some s ∧ 14 < s) := by
  cases font_size with
  | none => simp [TextBlock.create, text_block_post_type]
  | some s =>
    by_cases h : (14 : Rat) < s
    · have hs : s ≠ 0 := by
        intro h0
        rw [h0] at h
        norm_num at h
      simp [TextBlock.create, text_block_post_type, h, hs]
    · simp only [TextBlock.create, text_block_post_type]
      rw [if_neg (by tauto)]
      simp [h]

end PDFtoBPMN
